import Mathlib

/-!
Shallow embedding of the CMYK-simulator pixel pipeline.

The repository ships the same pixel math in three places:
* `src/js/colorEngine.js` — the library module (`ColorEngine`);
* `src/js/worker.js` — the self-contained Web-Worker variant;
* `src/js/main-demo.js` — the chunked main-thread variant (`processPixels`).

Each variant is transliterated separately below (prefixes `engine`, `worker`,
`demo`), over exact rational arithmetic.  JavaScript's `Math.sin(Math.PI * v)`
is the only transcendental operation in the source; it is abstracted as an
explicit function parameter `sinPi : ℚ → ℚ` (standing for `v ↦ sin (π v)`),
and every theorem below holds for an arbitrary such parameter — the source's
clamping makes the verified properties independent of the sine's values.
`Math.round` is round-half-up, embedded as `jsRound`.  Pixel buffers
(`Uint8ClampedArray` of RGBA quadruples) are embedded as `List Pixel`.
-/

/-- One RGBA pixel: four bytes of a `Uint8ClampedArray` buffer. -/
structure Pixel where
  r : Nat
  g : Nat
  b : Nat
  a : Nat
  deriving DecidableEq, Repr

/-- CMYK channel record (`{c, m, y, k}` objects in the source). -/
structure Cmyk where
  c : ℚ
  m : ℚ
  y : ℚ
  k : ℚ
  deriving DecidableEq, Repr

/-- The three substrate names every variant's profile table carries. -/
inductive PaperType
  | coated
  | uncoated
  | newsprint
  deriving DecidableEq, Repr

/-- Profile record of `PAPER_PROFILES` in worker.js / `PAPERS` in main-demo.js
(main-demo.js abbreviates the last two fields `sg` / `hg`). -/
structure PaperProfile where
  name : String
  dotGain : ℚ
  inkLimit : ℤ
  gamutReduction : ℚ
  shadowGain : ℚ
  highlightGain : ℚ
  deriving DecidableEq, Repr

/-- The caller-supplied settings record. -/
structure Settings where
  paperType : PaperType
  dotGain : ℚ
  showC : Bool
  showM : Bool
  showY : Bool
  showK : Bool
  gamutOverlay : Bool
  deriving DecidableEq, Repr

/-- The risk verdict record `{level, label, message}`. -/
structure Risk where
  level : String
  label : String
  message : String
  deriving DecidableEq, Repr

/-- A dominant-color entry as built by worker.js / main-demo.js:
source RGB plus rounded channel percentages. -/
structure DomColor where
  r : Nat
  g : Nat
  b : Nat
  c : ℤ
  m : ℤ
  y : ℤ
  k : ℤ
  deriving DecidableEq, Repr

/-- JavaScript `Math.round`: round half away from zero toward positive
infinity, i.e. `⌊x + 1/2⌋`. -/
def jsRound (x : ℚ) : ℤ := ⌊x + 1/2⌋

/-- Storing an integer into a `Uint8ClampedArray` slot clamps it to `[0, 255]`. -/
def clamp255 (z : ℤ) : Nat := (max 0 (min z 255)).toNat

/-! ## worker.js (lines 21-269) -/

/-- worker.js lines 21-46: the inlined `PAPER_PROFILES` table. -/
def workerPROFILES : PaperType → PaperProfile
  | .coated =>
    { name := "Coated", dotGain := 0.15, inkLimit := 300, gamutReduction := 0,
      shadowGain := 0.8, highlightGain := 0.4 }
  | .uncoated =>
    { name := "Uncoated", dotGain := 0.22, inkLimit := 280, gamutReduction := 0.08,
      shadowGain := 1.0, highlightGain := 0.5 }
  | .newsprint =>
    { name := "Newsprint", dotGain := 0.30, inkLimit := 240, gamutReduction := 0.18,
      shadowGain := 1.3, highlightGain := 0.6 }

/-- worker.js lines 48-58 (`rgbToCmyk`, guard `k >= 1`). -/
def workerRgbToCmyk (r g b : ℚ) : Cmyk :=
  let k := 1 - max r (max g b)
  if 1 ≤ k then ⟨0, 0, 0, 1⟩
  else
    let denom := 1 - k
    ⟨(1 - r - k) / denom, (1 - g - k) / denom, (1 - b - k) / denom, k⟩

/-- worker.js lines 60-66 (`cmykToRgb`). -/
def workerCmykToRgb (c m y k : ℚ) : ℤ × ℤ × ℤ :=
  (jsRound (255 * (1 - c) * (1 - k)),
   jsRound (255 * (1 - m) * (1 - k)),
   jsRound (255 * (1 - y) * (1 - k)))

/-- worker.js lines 68-76 (`applyDotGain`); `sinPi value` stands for
`Math.sin(Math.PI * value)`. -/
def workerApplyDotGain (sinPi : ℚ → ℚ) (value gain shadowGain highlightGain : ℚ) : ℚ :=
  if value ≤ 0 then 0
  else if 1 ≤ value then 1
  else
    let midtoneBoost := sinPi value
    let positionalWeight :=
      if value < 1/2 then highlightGain + (shadowGain - highlightGain) * (value * 2)
      else shadowGain - (shadowGain - highlightGain) * ((value - 1/2) * 2)
    min 1 (max 0 (value + gain * midtoneBoost * positionalWeight))

/-- worker.js lines 78-101 (`isOutOfGamut`). -/
def workerIsOutOfGamut (r g b : Nat) (paperType : PaperType) : Bool :=
  let profile := workerPROFILES paperType
  let rn : ℚ := (r : ℚ) / 255
  let gn : ℚ := (g : ℚ) / 255
  let bn : ℚ := (b : ℚ) / 255
  let mx := max rn (max gn bn)
  let mn := min rn (min gn bn)
  let lightness := (mx + mn) / 2
  let saturation : ℚ :=
    if mx = mn then 0 else (mx - mn) / (if 1/2 < lightness then 2 - mx - mn else mx + mn)
  let hue : ℚ :=
    if mx = mn then 0
    else
      let d := mx - mn
      if mx = rn then ((gn - bn) / d + (if gn < bn then 6 else 0)) / 6
      else if mx = gn then ((bn - rn) / d + 2) / 6
      else ((rn - gn) / d + 4) / 6
  let baseThreshold : ℚ := 0.82 - profile.gamutReduction
  let isNeonGreen := 0.22 < hue ∧ hue < 0.42 ∧ (0.7 : ℚ) < saturation
  let isElectricBlue :=
    0.55 < hue ∧ hue < 0.72 ∧ (0.75 : ℚ) < saturation ∧ (0.3 : ℚ) < lightness
  let isBrightOrange := 0.05 < hue ∧ hue < 0.12 ∧ (0.85 : ℚ) < saturation
  let gamutThreshold :=
    if isNeonGreen ∨ isElectricBlue ∨ isBrightOrange then baseThreshold - 0.12
    else baseThreshold
  if lightness < 0.08 ∨ 0.94 < lightness then false
  else decide (gamutThreshold < saturation)

/-- `Math.round(x / 32) * 32` quantization used by every dominant-color
sampler.  For a natural `x`, rounding `x / 32` half-up equals the integer
division `(x + 16) / 32`; `quantize32_eq_jsRound` below certifies this
equals the literal rational form. -/
def quantize32 (x : Nat) : Nat := ((x + 16) / 32) * 32

/-- `quantize32` agrees with the literal `Math.round(x / 32) * 32`. -/
theorem quantize32_eq_jsRound (x : Nat) :
    quantize32 x = (jsRound ((x : ℚ) / 32)).toNat * 32 := by
  have hcast : ((x : ℚ) / 32 + 1/2) = ((((x : ℤ) + 16 : ℤ) : ℚ)) / (((32 : ℕ) : ℚ)) := by
    push_cast
    ring
  have hfloor : ⌊((x : ℚ) / 32 + 1/2)⌋ = ((x : ℤ) + 16) / ((32 : ℕ) : ℤ) := by
    rw [hcast, Rat.floor_intCast_div_natCast]
  simp only [quantize32, jsRound, hfloor]
  omega

/-- `buckets[key] = (buckets[key] || 0) + 1` on a JS object whose keys are the
quantized `"r,g,b"` strings (bijective with the triples): insertion order is
preserved, a fresh key is appended at the end. -/
def bumpBucket (key : Nat × Nat × Nat) :
    List ((Nat × Nat × Nat) × Nat) → List ((Nat × Nat × Nat) × Nat)
  | [] => [(key, 1)]
  | (key', n) :: rest =>
    if key' = key then (key', n + 1) :: rest
    else (key', n) :: bumpBucket key rest

/-- Stable insert for a descending-by-count order: the new entry goes after
every existing entry whose count is ≥ its own. -/
def insertByCountDesc (x : (Nat × Nat × Nat) × Nat) :
    List ((Nat × Nat × Nat) × Nat) → List ((Nat × Nat × Nat) × Nat)
  | [] => [x]
  | e :: rest => if e.2 < x.2 then x :: e :: rest else e :: insertByCountDesc x rest

/-- `entries.sort((a, b) => b[1] - a[1])`: a stable sort by descending count
(JS `Array.prototype.sort` is stable, and `Object.entries` yields the
buckets in insertion order). -/
def sortByCountDesc (l : List ((Nat × Nat × Nat) × Nat)) :
    List ((Nat × Nat × Nat) × Nat) :=
  l.foldl (fun acc e => insertByCountDesc e acc) []

/-- The index sequence of `for (let i = 0; i < total; i += sampleRate)`. -/
def sampleIdxs (total rate : Nat) : List Nat :=
  (List.range total).filter (fun i => i % rate = 0)

/-- The alpha-skipping bucket-count loop, verbatim-identical in worker.js
lines 104-114 and main-demo.js lines 86-95: sampled pixels with
`alpha < 128` are skipped, the rest are counted into quantized buckets. -/
def skipSampleBuckets (pixels : List Pixel) (sampleRate : Nat) :
    List ((Nat × Nat × Nat) × Nat) :=
  (sampleIdxs pixels.length sampleRate).foldl
    (fun bs i =>
      let p := pixels.getD i ⟨0, 0, 0, 0⟩
      if p.a < 128 then bs
      else bumpBucket (quantize32 p.r, quantize32 p.g, quantize32 p.b) bs)
    []

/-- worker.js lines 103-129 (`extractDominantColors`): skips sampled pixels
with `alpha < 128`, quantizes to 32-wide buckets, returns the top 5 buckets
with rounded channel percentages. -/
def workerExtractDominantColors (pixels : List Pixel) (sampleRate : Nat) :
    List DomColor :=
  let buckets := skipSampleBuckets pixels sampleRate
  ((sortByCountDesc buckets).take 5).map (fun e =>
    let r : Nat := e.1.1
    let g : Nat := e.1.2.1
    let b : Nat := e.1.2.2
    let q := workerRgbToCmyk ((r : ℚ) / 255) ((g : ℚ) / 255) ((b : ℚ) / 255)
    ⟨r, g, b, jsRound (q.c * 100), jsRound (q.m * 100),
     jsRound (q.y * 100), jsRound (q.k * 100)⟩)

/-- worker.js line 169: the raw RGB→CMYK conversion of one pixel. -/
def workerPixelRaw (p : Pixel) : Cmyk :=
  workerRgbToCmyk ((p.r : ℚ) / 255) ((p.g : ℚ) / 255) ((p.b : ℚ) / 255)

/-- worker.js lines 171-174: dot gain applied to all four channels. -/
def workerPixelShifted (sinPi : ℚ → ℚ) (st : Settings) (p : Pixel) : Cmyk :=
  let profile := workerPROFILES st.paperType
  let q := workerPixelRaw p
  ⟨workerApplyDotGain sinPi q.c st.dotGain profile.shadowGain profile.highlightGain,
   workerApplyDotGain sinPi q.m st.dotGain profile.shadowGain profile.highlightGain,
   workerApplyDotGain sinPi q.y st.dotGain profile.shadowGain profile.highlightGain,
   workerApplyDotGain sinPi q.k st.dotGain profile.shadowGain profile.highlightGain⟩

/-- worker.js lines 176-180: gamut-reduction inflation of C/M/Y (K untouched). -/
def workerPixelInflated (sinPi : ℚ → ℚ) (st : Settings) (p : Pixel) : Cmyk :=
  let profile := workerPROFILES st.paperType
  let q := workerPixelShifted sinPi st p
  if 0 < profile.gamutReduction then
    ⟨min 1 (q.c + q.c * profile.gamutReduction * 0.5),
     min 1 (q.m + q.m * profile.gamutReduction * 0.3),
     min 1 (q.y + q.y * profile.gamutReduction * 0.3),
     q.k⟩
  else q

/-- worker.js line 182: `tac = (c + m + y + k) * 100`. -/
def workerPixelTac (sinPi : ℚ → ℚ) (st : Settings) (p : Pixel) : ℚ :=
  let q := workerPixelInflated sinPi st p
  (q.c + q.m + q.y + q.k) * 100

/-- worker.js lines 162-167 and 189-198: the output-buffer pixel.  A fully
transparent pixel is forced to opaque white; otherwise the channel-visibility
flags zero hidden channels before the CMYK→RGB reconstruction. -/
def workerOutPixel (sinPi : ℚ → ℚ) (st : Settings) (p : Pixel) : Pixel :=
  if p.a = 0 then ⟨255, 255, 255, 255⟩
  else
    let q := workerPixelInflated sinPi st p
    let fc := if st.showC then q.c else 0
    let fm := if st.showM then q.m else 0
    let fy := if st.showY then q.y else 0
    let fk := if st.showK then q.k else 0
    let rgb := workerCmykToRgb fc fm fy fk
    ⟨clamp255 rgb.1, clamp255 rgb.2.1, clamp255 rgb.2.2, p.a⟩

/-- worker.js lines 165 and 200-205: the overlay-buffer pixel (the buffer is
zero-initialised; only the flagged case writes a non-zero color). -/
def workerGamPixel (st : Settings) (p : Pixel) : Pixel :=
  if p.a = 0 then ⟨0, 0, 0, 0⟩
  else if st.gamutOverlay && workerIsOutOfGamut p.r p.g p.b st.paperType then
    ⟨220, 38, 38, 150⟩
  else ⟨0, 0, 0, 0⟩

/-- Running aggregates of the pixel loop. -/
structure Agg where
  totalTAC : ℚ
  maxTAC : ℚ
  oogCount : Nat
  procCount : Nat
  deriving DecidableEq, Repr

/-- worker.js lines 162-207, aggregate part: transparent pixels leave every
accumulator untouched; others add their TAC, bump the max, and count. -/
def workerAggStep (sinPi : ℚ → ℚ) (st : Settings) (agg : Agg) (p : Pixel) : Agg :=
  if p.a = 0 then agg
  else
    let tac := workerPixelTac sinPi st p
    let oog := workerIsOutOfGamut p.r p.g p.b st.paperType
    { totalTAC := agg.totalTAC + tac,
      maxTAC := if agg.maxTAC < tac then tac else agg.maxTAC,
      oogCount := agg.oogCount + (if oog then 1 else 0),
      procCount := agg.procCount + 1 }

/-- The worker's stats record (worker.js lines 229-237). -/
structure WorkerStats where
  avgTAC : ℤ
  maxTAC : ℤ
  outOfGamutCount : Nat
  outOfGamutPercent : ℚ
  dominantColors : List DomColor
  risk : Risk
  inkLimit : ℤ
  deriving DecidableEq, Repr

/-- worker.js lines 226-238: the full result record. -/
structure WorkerResult where
  outputPixels : List Pixel
  gamutPixels : List Pixel
  stats : WorkerStats
  deriving DecidableEq, Repr

/-- worker.js lines 213-222: the inlined three-tier risk decision. -/
def workerRisk (maxTAC oogPct : ℚ) (profile : PaperProfile) : Risk :=
  let limit := profile.inkLimit
  if (limit : ℚ) + 30 < maxTAC ∨ 25 < oogPct then
    ⟨"danger", "High Risk",
     "Max ink coverage (" ++ toString (jsRound maxTAC) ++ "%) exceeds the " ++
       toString limit ++ "% limit for " ++ profile.name ++
       " paper. Printer may reject the file."⟩
  else if (limit : ℚ) < maxTAC ∨ 10 < oogPct then
    ⟨"caution", "Caution",
     "Some areas approach the " ++ toString limit ++ "% ink limit for " ++
       profile.name ++ " paper. Review highlighted regions."⟩
  else
    ⟨"safe", "Looking Good",
     "Ink coverage is within acceptable range for " ++ profile.name ++
       " paper. Always verify with ICC soft proof before final production."⟩

/-- worker.js lines 132-239 (`processImage`): per-pixel maps into the two
output buffers, a left fold for the aggregates, then the stats record.
Progress messages (lines 149-154) carry no data and are omitted. -/
def workerProcessImage (sinPi : ℚ → ℚ) (pixels : List Pixel) (st : Settings) :
    WorkerResult :=
  let profile := workerPROFILES st.paperType
  let agg := pixels.foldl (workerAggStep sinPi st) ⟨0, 0, 0, 0⟩
  let avgTAC := if 0 < agg.procCount then agg.totalTAC / (agg.procCount : ℚ) else 0
  let oogPct :=
    if 0 < agg.procCount then ((agg.oogCount : ℚ) / (agg.procCount : ℚ)) * 100 else 0
  { outputPixels := pixels.map (workerOutPixel sinPi st),
    gamutPixels := pixels.map (workerGamPixel st),
    stats :=
      { avgTAC := jsRound avgTAC,
        maxTAC := jsRound agg.maxTAC,
        outOfGamutCount := agg.oogCount,
        outOfGamutPercent := ((jsRound (oogPct * 10) : ℚ)) / 10,
        dominantColors := workerExtractDominantColors pixels 8,
        risk := workerRisk agg.maxTAC oogPct profile,
        inkLimit := profile.inkLimit } }

/-- The worker's reply: either a `result` message or an `error` message. -/
inductive WorkerResponse
  | result (outputPixels gamutPixels : List Pixel) (stats : WorkerStats)
  | error (message : String)
  deriving DecidableEq, Repr

/-- An incoming worker request (`e.data`); `pixels := none` models a missing
buffer, which `new Uint8ClampedArray(undefined)` turns into a length-0 array. -/
structure WorkerMessage where
  type : String
  pixels : Option (List Pixel)
  settings : Settings

/-- worker.js lines 242-269 (`self.onmessage`): non-`process` messages are
ignored; an absent or empty buffer raises, caught into an error response. -/
def workerOnMessage (sinPi : ℚ → ℚ) (msg : WorkerMessage) : Option WorkerResponse :=
  if msg.type ≠ "process" then none
  else
    let pixelArray := msg.pixels.getD []
    if pixelArray.length = 0 then
      some (.error "No pixel data received. Image may not have loaded correctly.")
    else
      let r := workerProcessImage sinPi pixelArray msg.settings
      some (.result r.outputPixels r.gamutPixels r.stats)

/-! ## main-demo.js (lines 12-197): the chunked main-thread variant -/

/-- main-demo.js lines 12-16: the `PAPERS` table (`sg`/`hg` are this file's
names for the shadow/highlight multipliers). -/
def demoPAPERS : PaperType → PaperProfile
  | .coated =>
    { name := "Coated", dotGain := 0.15, inkLimit := 300, gamutReduction := 0,
      shadowGain := 0.8, highlightGain := 0.4 }
  | .uncoated =>
    { name := "Uncoated", dotGain := 0.22, inkLimit := 280, gamutReduction := 0.08,
      shadowGain := 1.0, highlightGain := 0.5 }
  | .newsprint =>
    { name := "Newsprint", dotGain := 0.30, inkLimit := 240, gamutReduction := 0.18,
      shadowGain := 1.3, highlightGain := 0.6 }

/-- main-demo.js lines 19-24 (`rgbToCmyk`, guard `k >= 1`). -/
def demoRgbToCmyk (r g b : ℚ) : Cmyk :=
  let k := 1 - max r (max g b)
  if 1 ≤ k then ⟨0, 0, 0, 1⟩
  else
    let d := 1 - k
    ⟨(1 - r - k) / d, (1 - g - k) / d, (1 - b - k) / d, k⟩

/-- main-demo.js lines 26-32 (`cmykToRgb`). -/
def demoCmykToRgb (c m y k : ℚ) : ℤ × ℤ × ℤ :=
  (jsRound (255 * (1 - c) * (1 - k)),
   jsRound (255 * (1 - m) * (1 - k)),
   jsRound (255 * (1 - y) * (1 - k)))

/-- main-demo.js lines 34-40 (`dotGain`); `sinPi v` stands for
`Math.sin(Math.PI * v)`. -/
def demoDotGainFn (sinPi : ℚ → ℚ) (v gain sg hg : ℚ) : ℚ :=
  if v ≤ 0 then 0
  else if 1 ≤ v then 1
  else
    let mb := sinPi v
    let pw :=
      if v < 1/2 then hg + (sg - hg) * (v * 2)
      else sg - (sg - hg) * ((v - 1/2) * 2)
    min 1 (max 0 (v + gain * mb * pw))

/-- main-demo.js lines 42-58 (`outOfGamut`). -/
def demoOutOfGamut (r g b : Nat) (pt : PaperType) : Bool :=
  let p := demoPAPERS pt
  let rn : ℚ := (r : ℚ) / 255
  let gn : ℚ := (g : ℚ) / 255
  let bn : ℚ := (b : ℚ) / 255
  let mx := max rn (max gn bn)
  let mn := min rn (min gn bn)
  let li := (mx + mn) / 2
  let sat : ℚ :=
    if mx = mn then 0 else (mx - mn) / (if 1/2 < li then 2 - mx - mn else mx + mn)
  let hue : ℚ :=
    if mx = mn then 0
    else
      let d := mx - mn
      if mx = rn then ((gn - bn) / d + (if gn < bn then 6 else 0)) / 6
      else if mx = gn then ((bn - rn) / d + 2) / 6
      else ((rn - gn) / d + 4) / 6
  let thr0 : ℚ := 0.82 - p.gamutReduction
  let winGreen := 0.22 < hue ∧ hue < 0.42 ∧ (0.7 : ℚ) < sat
  let winBlue := 0.55 < hue ∧ hue < 0.72 ∧ (0.75 : ℚ) < sat ∧ (0.3 : ℚ) < li
  let winOrange := 0.05 < hue ∧ hue < 0.12 ∧ (0.85 : ℚ) < sat
  let thr := if winGreen ∨ winBlue ∨ winOrange then thr0 - 0.12 else thr0
  if li < 0.08 ∨ 0.94 < li then false
  else decide (thr < sat)

/-- main-demo.js lines 85-105 (`dominantColors`): fixed stride 10, skips
sampled pixels with `alpha < 128`, same bucket/sort/top-5 scheme as the
worker's sampler. -/
def demoDominantColors (pixels : List Pixel) : List DomColor :=
  let buckets := skipSampleBuckets pixels 10
  ((sortByCountDesc buckets).take 5).map (fun e =>
    let r : Nat := e.1.1
    let g : Nat := e.1.2.1
    let b : Nat := e.1.2.2
    let q := demoRgbToCmyk ((r : ℚ) / 255) ((g : ℚ) / 255) ((b : ℚ) / 255)
    ⟨r, g, b, jsRound (q.c * 100), jsRound (q.m * 100),
     jsRound (q.y * 100), jsRound (q.k * 100)⟩)

/-- main-demo.js line 133: raw conversion of one pixel. -/
def demoPixelRaw (p : Pixel) : Cmyk :=
  demoRgbToCmyk ((p.r : ℚ) / 255) ((p.g : ℚ) / 255) ((p.b : ℚ) / 255)

/-- main-demo.js lines 134-137: dot gain on all four channels. -/
def demoPixelShifted (sinPi : ℚ → ℚ) (st : Settings) (p : Pixel) : Cmyk :=
  let prof := demoPAPERS st.paperType
  let q := demoPixelRaw p
  ⟨demoDotGainFn sinPi q.c st.dotGain prof.shadowGain prof.highlightGain,
   demoDotGainFn sinPi q.m st.dotGain prof.shadowGain prof.highlightGain,
   demoDotGainFn sinPi q.y st.dotGain prof.shadowGain prof.highlightGain,
   demoDotGainFn sinPi q.k st.dotGain prof.shadowGain prof.highlightGain⟩

/-- main-demo.js lines 139-143: gamut-reduction inflation (K untouched). -/
def demoPixelInflated (sinPi : ℚ → ℚ) (st : Settings) (p : Pixel) : Cmyk :=
  let prof := demoPAPERS st.paperType
  let q := demoPixelShifted sinPi st p
  if 0 < prof.gamutReduction then
    ⟨min 1 (q.c + q.c * prof.gamutReduction * 0.5),
     min 1 (q.m + q.m * prof.gamutReduction * 0.3),
     min 1 (q.y + q.y * prof.gamutReduction * 0.3),
     q.k⟩
  else q

/-- main-demo.js line 145: `tac = (c + m + y + k) * 100`. -/
def demoPixelTac (sinPi : ℚ → ℚ) (st : Settings) (p : Pixel) : ℚ :=
  let q := demoPixelInflated sinPi st p
  (q.c + q.m + q.y + q.k) * 100

/-- main-demo.js lines 127-130 and 152-153: the output-buffer pixel. -/
def demoOutPixel (sinPi : ℚ → ℚ) (st : Settings) (p : Pixel) : Pixel :=
  if p.a = 0 then ⟨255, 255, 255, 255⟩
  else
    let q := demoPixelInflated sinPi st p
    let fc := if st.showC then q.c else 0
    let fm := if st.showM then q.m else 0
    let fy := if st.showY then q.y else 0
    let fk := if st.showK then q.k else 0
    let rgb := demoCmykToRgb fc fm fy fk
    ⟨clamp255 rgb.1, clamp255 rgb.2.1, clamp255 rgb.2.2, p.a⟩

/-- main-demo.js lines 129 and 155-159: the overlay-buffer pixel. -/
def demoGamPixel (st : Settings) (p : Pixel) : Pixel :=
  if p.a = 0 then ⟨0, 0, 0, 0⟩
  else if st.gamutOverlay && demoOutOfGamut p.r p.g p.b st.paperType then
    ⟨220, 38, 38, 150⟩
  else ⟨0, 0, 0, 0⟩

/-- main-demo.js lines 127-160, aggregate part. -/
def demoAggStep (sinPi : ℚ → ℚ) (st : Settings) (agg : Agg) (p : Pixel) : Agg :=
  if p.a = 0 then agg
  else
    let tac := demoPixelTac sinPi st p
    let oog := demoOutOfGamut p.r p.g p.b st.paperType
    { totalTAC := agg.totalTAC + tac,
      maxTAC := if agg.maxTAC < tac then tac else agg.maxTAC,
      oogCount := agg.oogCount + (if oog then 1 else 0),
      procCount := agg.procCount + 1 }

/-- The main-thread variant's stats record (main-demo.js lines 184-191):
unlike the worker's, it carries no `outOfGamutCount` field. -/
structure DemoStats where
  avgTAC : ℤ
  maxTAC : ℤ
  outOfGamutPercent : ℚ
  dominantColors : List DomColor
  risk : Risk
  inkLimit : ℤ
  deriving DecidableEq, Repr

/-- main-demo.js lines 181-192: the `onDone` payload. -/
structure DemoResult where
  outputPixels : List Pixel
  gamutPixels : List Pixel
  stats : DemoStats
  deriving DecidableEq, Repr

/-- main-demo.js lines 172-179: the inlined three-tier risk decision. -/
def demoRisk (maxTAC oogPct : ℚ) (p : PaperProfile) : Risk :=
  let lim := p.inkLimit
  if (lim : ℚ) + 30 < maxTAC ∨ 25 < oogPct then
    ⟨"danger", "High Risk",
     "Max ink coverage (" ++ toString (jsRound maxTAC) ++ "%) exceeds the " ++
       toString lim ++ "% limit for " ++ p.name ++
       " paper. Printer may reject the file."⟩
  else if (lim : ℚ) < maxTAC ∨ 10 < oogPct then
    ⟨"caution", "Caution",
     "Some areas approach the " ++ toString lim ++ "% ink limit for " ++
       p.name ++ " paper. Review highlighted regions."⟩
  else
    ⟨"safe", "Looking Good",
     "Ink coverage is within acceptable range for " ++ p.name ++
       " paper. Always verify with ICC soft proof before final production."⟩

/-- main-demo.js lines 111-197 (`processPixels`): the chunked loop visits the
pixels in the same order as a single pass (`CHUNK_SIZE` only bounds how many
iterations run per `setTimeout` tick), so it is embedded as one pass; the
value is the payload handed to `onDone`. -/
def demoProcessPixels (sinPi : ℚ → ℚ) (pixels : List Pixel) (st : Settings) :
    DemoResult :=
  let p := demoPAPERS st.paperType
  let agg := pixels.foldl (demoAggStep sinPi st) ⟨0, 0, 0, 0⟩
  let avgTAC := if 0 < agg.procCount then agg.totalTAC / (agg.procCount : ℚ) else 0
  let oogPct :=
    if 0 < agg.procCount then ((agg.oogCount : ℚ) / (agg.procCount : ℚ)) * 100 else 0
  { outputPixels := pixels.map (demoOutPixel sinPi st),
    gamutPixels := pixels.map (demoGamPixel st),
    stats :=
      { avgTAC := jsRound avgTAC,
        maxTAC := jsRound agg.maxTAC,
        outOfGamutPercent := ((jsRound (oogPct * 10) : ℚ)) / 10,
        dominantColors := demoDominantColors pixels,
        risk := demoRisk agg.maxTAC oogPct p,
        inkLimit := p.inkLimit } }

/-! ## colorEngine.js (lines 22-406): the `ColorEngine` library module -/

/-- Profile record of colorEngine.js `PAPER_PROFILES` (lines 27-55): unlike
the worker table it stores the dot gain as a percentage and carries a
description string. -/
structure EnginePaperProfile where
  name : String
  dotGain : ℚ
  inkLimit : ℤ
  gamutReduction : ℚ
  description : String
  shadowGain : ℚ
  highlightGain : ℚ
  deriving DecidableEq, Repr

/-- colorEngine.js lines 27-55. -/
def enginePROFILES : PaperType → EnginePaperProfile
  | .coated =>
    { name := "Coated", dotGain := 15, inkLimit := 300, gamutReduction := 0,
      description := "Coated / Glossy — ISO Coated v2 (FOGRA39 approximation)",
      shadowGain := 0.8, highlightGain := 0.4 }
  | .uncoated =>
    { name := "Uncoated", dotGain := 22, inkLimit := 280, gamutReduction := 0.08,
      description := "Uncoated / Matte — ISO Uncoated (FOGRA29 approximation)",
      shadowGain := 1.0, highlightGain := 0.5 }
  | .newsprint =>
    { name := "Newsprint", dotGain := 30, inkLimit := 240, gamutReduction := 0.18,
      description := "Newsprint — SNAP (Specifications for Newsprint Advertising Production)",
      shadowGain := 1.3, highlightGain := 0.6 }

/-- colorEngine.js lines 66-76 (`rgbToCmyk`): note the guard here is the
equality test `k === 1`, not the worker's `k >= 1`. -/
def engineRgbToCmyk (r g b : ℚ) : Cmyk :=
  let k := 1 - max r (max g b)
  if k = 1 then ⟨0, 0, 0, 1⟩
  else
    let denom := 1 - k
    ⟨(1 - r - k) / denom, (1 - g - k) / denom, (1 - b - k) / denom, k⟩

/-- `engineRgbToCmyk` with the division made explicit as a fallible
operation: `none` would be returned exactly if a division by a zero
denominator were executed. -/
def engineRgbToCmykChecked (r g b : ℚ) : Option Cmyk :=
  let k := 1 - max r (max g b)
  if k = 1 then some ⟨0, 0, 0, 1⟩
  else
    let denom := 1 - k
    if denom = 0 then none
    else some ⟨(1 - r - k) / denom, (1 - g - k) / denom, (1 - b - k) / denom, k⟩

/-- colorEngine.js lines 87-93 (`cmykToRgb`), before the `Math.round` to
8-bit: the exact real-valued `255(1-c)(1-k)` per channel. -/
def engineCmykToRgbPre (c m y k : ℚ) : ℚ × ℚ × ℚ :=
  (255 * (1 - c) * (1 - k), 255 * (1 - m) * (1 - k), 255 * (1 - y) * (1 - k))

/-- colorEngine.js lines 87-93 (`cmykToRgb`). -/
def engineCmykToRgb (c m y k : ℚ) : ℤ × ℤ × ℤ :=
  (jsRound (255 * (1 - c) * (1 - k)),
   jsRound (255 * (1 - m) * (1 - k)),
   jsRound (255 * (1 - y) * (1 - k)))

/-- colorEngine.js lines 111-125 (`applyDotGain`); `sinPi value` stands for
`Math.sin(Math.PI * value)`, and the source's default arguments
(`shadowGain = 1.0`, `highlightGain = 0.5`) are always passed explicitly at
the call sites embedded here. -/
def engineApplyDotGain (sinPi : ℚ → ℚ) (value gain shadowGain highlightGain : ℚ) : ℚ :=
  if value ≤ 0 then 0
  else if 1 ≤ value then 1
  else
    let midtoneBoost := sinPi value
    let positionalWeight :=
      if value < 1/2 then highlightGain + (shadowGain - highlightGain) * (value * 2)
      else shadowGain - (shadowGain - highlightGain) * ((value - 1/2) * 2)
    min 1 (max 0 (value + gain * midtoneBoost * positionalWeight))

/-- colorEngine.js lines 139-174 (`isOutOfGamut`). -/
def engineIsOutOfGamut (r g b : Nat) (paperType : PaperType) : Bool :=
  let profile := enginePROFILES paperType
  let rn : ℚ := (r : ℚ) / 255
  let gn : ℚ := (g : ℚ) / 255
  let bn : ℚ := (b : ℚ) / 255
  let mx := max rn (max gn bn)
  let mn := min rn (min gn bn)
  let lightness := (mx + mn) / 2
  let saturation : ℚ :=
    if mx = mn then 0 else (mx - mn) / (if 1/2 < lightness then 2 - mx - mn else mx + mn)
  let hue : ℚ :=
    if mx = mn then 0
    else
      let d := mx - mn
      if mx = rn then ((gn - bn) / d + (if gn < bn then 6 else 0)) / 6
      else if mx = gn then ((bn - rn) / d + 2) / 6
      else ((rn - gn) / d + 4) / 6
  let baseThreshold : ℚ := 0.82 - profile.gamutReduction
  let isNeonGreen := 0.22 < hue ∧ hue < 0.42 ∧ (0.7 : ℚ) < saturation
  let isElectricBlue :=
    0.55 < hue ∧ hue < 0.72 ∧ (0.75 : ℚ) < saturation ∧ (0.3 : ℚ) < lightness
  let isBrightOrange := 0.05 < hue ∧ hue < 0.12 ∧ (0.85 : ℚ) < saturation
  let gamutThreshold :=
    if isNeonGreen ∨ isElectricBlue ∨ isBrightOrange then baseThreshold - 0.12
    else baseThreshold
  if lightness < 0.08 ∨ 0.94 < lightness then false
  else decide (gamutThreshold < saturation)

/-- colorEngine.js lines 185-187 (`totalInkCoverage`). -/
def engineTotalInkCoverage (c m y k : ℚ) : ℚ := (c + m + y + k) * 100

/-- colorEngine.js lines 198-221 (`assessPrintRisk`); the `avgTAC` argument
is accepted but, as in the source, does not influence the decision. -/
def engineAssessPrintRisk (avgTAC maxTAC outOfGamutPercent : ℚ)
    (paperType : PaperType) : Risk :=
  let profile := enginePROFILES paperType
  let limit := profile.inkLimit
  if (limit : ℚ) + 30 < maxTAC ∨ 25 < outOfGamutPercent then
    ⟨"danger", "High Risk",
     "Max ink coverage (" ++ toString (jsRound maxTAC) ++ "%) exceeds " ++
       toString limit ++ "% limit for " ++ profile.name ++
       " paper. Printer may reject file or drying issues may occur."⟩
  else if (limit : ℚ) < maxTAC ∨ 10 < outOfGamutPercent then
    ⟨"caution", "Caution",
     "Some areas approach or exceed the " ++ toString limit ++
       "% ink limit. Review highlighted regions and consider reducing saturation in those areas."⟩
  else
    ⟨"safe", "Looking Good",
     "Ink coverage within acceptable range for " ++ profile.name ++
       " paper. Always verify with ICC soft proof before final production."⟩

/-- A dominant-color entry as built by colorEngine.js: source RGB, the raw
CMYK record, and the bucket count. -/
structure EngineDomColor where
  r : Nat
  g : Nat
  b : Nat
  cmyk : Cmyk
  count : Nat
  deriving DecidableEq, Repr

/-- colorEngine.js lines 231-252 (`extractDominantColors`): same quantized
buckets and top-5 selection as the worker's sampler, but with NO alpha test —
every sampled pixel is counted, transparent or not. -/
def engineExtractDominantColors (pixels : List Pixel) (sampleRate : Nat) :
    List EngineDomColor :=
  let buckets := (sampleIdxs pixels.length sampleRate).foldl
    (fun bs i =>
      let p := pixels.getD i ⟨0, 0, 0, 0⟩
      bumpBucket (quantize32 p.r, quantize32 p.g, quantize32 p.b) bs)
    []
  ((sortByCountDesc buckets).take 5).map (fun e =>
    let r : Nat := e.1.1
    let g : Nat := e.1.2.1
    let b : Nat := e.1.2.2
    let cmyk := engineRgbToCmyk ((r : ℚ) / 255) ((g : ℚ) / 255) ((b : ℚ) / 255)
    ⟨r, g, b, cmyk, e.2⟩)

/-- colorEngine.js line 305: raw conversion of one pixel. -/
def enginePixelRaw (p : Pixel) : Cmyk :=
  engineRgbToCmyk ((p.r : ℚ) / 255) ((p.g : ℚ) / 255) ((p.b : ℚ) / 255)

/-- colorEngine.js lines 307-311: dot gain on all four channels (`gain` is
`settings.dotGain`). -/
def enginePixelShifted (sinPi : ℚ → ℚ) (st : Settings) (p : Pixel) : Cmyk :=
  let profile := enginePROFILES st.paperType
  let q := enginePixelRaw p
  ⟨engineApplyDotGain sinPi q.c st.dotGain profile.shadowGain profile.highlightGain,
   engineApplyDotGain sinPi q.m st.dotGain profile.shadowGain profile.highlightGain,
   engineApplyDotGain sinPi q.y st.dotGain profile.shadowGain profile.highlightGain,
   engineApplyDotGain sinPi q.k st.dotGain profile.shadowGain profile.highlightGain⟩

/-- colorEngine.js lines 313-318: gamut-reduction inflation, written
`c * (1 + reduction * factor)` in this file (K untouched). -/
def enginePixelInflated (sinPi : ℚ → ℚ) (st : Settings) (p : Pixel) : Cmyk :=
  let profile := enginePROFILES st.paperType
  let q := enginePixelShifted sinPi st p
  if 0 < profile.gamutReduction then
    ⟨min 1 (q.c * (1 + profile.gamutReduction * 0.5)),
     min 1 (q.m * (1 + profile.gamutReduction * 0.3)),
     min 1 (q.y * (1 + profile.gamutReduction * 0.3)),
     q.k⟩
  else q

/-- colorEngine.js line 327: `tac = totalInkCoverage(c, m, y, k)`. -/
def enginePixelTac (sinPi : ℚ → ℚ) (st : Settings) (p : Pixel) : ℚ :=
  let q := enginePixelInflated sinPi st p
  engineTotalInkCoverage q.c q.m q.y q.k

/-- colorEngine.js lines 292-296 and 320-340: the output-buffer pixel. -/
def engineOutPixel (sinPi : ℚ → ℚ) (st : Settings) (p : Pixel) : Pixel :=
  if p.a = 0 then ⟨255, 255, 255, 255⟩
  else
    let q := enginePixelInflated sinPi st p
    let fc := if st.showC then q.c else 0
    let fm := if st.showM then q.m else 0
    let fy := if st.showY then q.y else 0
    let fk := if st.showK then q.k else 0
    let rgb := engineCmykToRgb fc fm fy fk
    ⟨clamp255 rgb.1, clamp255 rgb.2.1, clamp255 rgb.2.2, p.a⟩

/-- colorEngine.js lines 297-300 and 342-353: the overlay-buffer pixel (this
file writes `(255,255,255,0)` for transparent pixels and warning alpha 140). -/
def engineGamPixel (st : Settings) (p : Pixel) : Pixel :=
  if p.a = 0 then ⟨255, 255, 255, 0⟩
  else if st.gamutOverlay && engineIsOutOfGamut p.r p.g p.b st.paperType then
    ⟨220, 38, 38, 140⟩
  else ⟨0, 0, 0, 0⟩

/-- colorEngine.js lines 291-356, aggregate part. -/
def engineAggStep (sinPi : ℚ → ℚ) (st : Settings) (agg : Agg) (p : Pixel) : Agg :=
  if p.a = 0 then agg
  else
    let tac := enginePixelTac sinPi st p
    let oog := engineIsOutOfGamut p.r p.g p.b st.paperType
    { totalTAC := agg.totalTAC + tac,
      maxTAC := if agg.maxTAC < tac then tac else agg.maxTAC,
      oogCount := agg.oogCount + (if oog then 1 else 0),
      procCount := agg.procCount + 1 }

/-- The engine's stats record (colorEngine.js lines 366-374). -/
structure EngineStats where
  avgTAC : ℤ
  maxTAC : ℤ
  outOfGamutCount : Nat
  outOfGamutPercent : ℚ
  dominantColors : List EngineDomColor
  risk : Risk
  inkLimit : ℤ
  deriving DecidableEq, Repr

/-- colorEngine.js lines 363-375. -/
structure EngineResult where
  outputPixels : List Pixel
  gamutPixels : List Pixel
  stats : EngineStats
  deriving DecidableEq, Repr

/-- colorEngine.js lines 270-376 (`processImage`): note line 360 runs the
alpha-blind `extractDominantColors` over the source pixels with stride 8. -/
def engineProcessImage (sinPi : ℚ → ℚ) (pixels : List Pixel) (st : Settings) :
    EngineResult :=
  let profile := enginePROFILES st.paperType
  let agg := pixels.foldl (engineAggStep sinPi st) ⟨0, 0, 0, 0⟩
  let avgTAC := if 0 < agg.procCount then agg.totalTAC / (agg.procCount : ℚ) else 0
  let oogPct :=
    if 0 < agg.procCount then ((agg.oogCount : ℚ) / (agg.procCount : ℚ)) * 100 else 0
  { outputPixels := pixels.map (engineOutPixel sinPi st),
    gamutPixels := pixels.map (engineGamPixel st),
    stats :=
      { avgTAC := jsRound avgTAC,
        maxTAC := jsRound agg.maxTAC,
        outOfGamutCount := agg.oogCount,
        outOfGamutPercent := ((jsRound (oogPct * 10) : ℚ)) / 10,
        dominantColors := engineExtractDominantColors pixels 8,
        risk := engineAssessPrintRisk avgTAC agg.maxTAC oogPct st.paperType,
        inkLimit := profile.inkLimit } }

/-! ## Helper lemmas -/

/-- The three dot-gain functions are verbatim-identical in the source. -/
theorem engineApplyDotGain_eq_worker : engineApplyDotGain = workerApplyDotGain := rfl

/-- main-demo.js `dotGain` is the same function as worker.js `applyDotGain`. -/
theorem demoDotGainFn_eq_worker : demoDotGainFn = workerApplyDotGain := rfl

/-- The clamp `min(1, max(0, ·))` keeps every dot-gain result in `[0, 1]`,
for an arbitrary abstract sine. -/
theorem workerApplyDotGain_mem (sinPi : ℚ → ℚ) (v gain sg hg : ℚ) :
    0 ≤ workerApplyDotGain sinPi v gain sg hg ∧
      workerApplyDotGain sinPi v gain sg hg ≤ 1 := by
  simp only [workerApplyDotGain]
  split_ifs with h1 h2 h3
  · exact ⟨le_refl 0, by norm_num⟩
  · exact ⟨by norm_num, le_refl 1⟩
  · exact ⟨le_min (by norm_num) (le_max_left 0 _), min_le_left 1 _⟩
  · exact ⟨le_min (by norm_num) (le_max_left 0 _), min_le_left 1 _⟩

/-- With magnitude 0 the dot-gain function is the identity on `[0, 1]`. -/
theorem workerApplyDotGain_zero_gain (sinPi : ℚ → ℚ) (v sg hg : ℚ)
    (h0 : 0 ≤ v) (h1 : v ≤ 1) : workerApplyDotGain sinPi v 0 sg hg = v := by
  simp only [workerApplyDotGain]
  split_ifs with hle hge h3
  · exact (le_antisymm hle h0).symm
  · exact (le_antisymm h1 hge).symm
  · rw [zero_mul, zero_mul, add_zero, max_eq_right h0, min_eq_right h1]
  · rw [zero_mul, zero_mul, add_zero, max_eq_right h0, min_eq_right h1]

/-- Channel bounds for the worker's RGB→CMYK conversion on `[0,1]` inputs. -/
theorem workerRgbToCmyk_mem (r g b : ℚ) (hr0 : 0 ≤ r) (hr1 : r ≤ 1)
    (hg0 : 0 ≤ g) (hg1 : g ≤ 1) (hb0 : 0 ≤ b) (hb1 : b ≤ 1) :
    (0 ≤ (workerRgbToCmyk r g b).c ∧ (workerRgbToCmyk r g b).c ≤ 1) ∧
    (0 ≤ (workerRgbToCmyk r g b).m ∧ (workerRgbToCmyk r g b).m ≤ 1) ∧
    (0 ≤ (workerRgbToCmyk r g b).y ∧ (workerRgbToCmyk r g b).y ≤ 1) ∧
    (0 ≤ (workerRgbToCmyk r g b).k ∧ (workerRgbToCmyk r g b).k ≤ 1) := by
  have hMr : r ≤ max r (max g b) := le_max_left _ _
  have hMg : g ≤ max r (max g b) := le_trans (le_max_left g b) (le_max_right _ _)
  have hMb : b ≤ max r (max g b) := le_trans (le_max_right g b) (le_max_right _ _)
  have hM1 : max r (max g b) ≤ 1 := max_le hr1 (max_le hg1 hb1)
  have hM0 : 0 ≤ max r (max g b) := le_trans hr0 hMr
  simp only [workerRgbToCmyk]
  split_ifs with h
  · refine ⟨⟨le_refl 0, by norm_num⟩, ⟨le_refl 0, by norm_num⟩,
      ⟨le_refl 0, by norm_num⟩, ⟨by norm_num, le_refl 1⟩⟩
  · have hMpos : 0 < max r (max g b) := by
      by_contra hc
      exact h (by push_neg at hc; linarith)
    have hden : (0 : ℚ) < 1 - (1 - max r (max g b)) := by linarith
    refine ⟨⟨div_nonneg (by linarith) (le_of_lt hden), ?_⟩,
      ⟨div_nonneg (by linarith) (le_of_lt hden), ?_⟩,
      ⟨div_nonneg (by linarith) (le_of_lt hden), ?_⟩,
      ⟨by linarith, by linarith⟩⟩
    · exact (div_le_one hden).mpr (by linarith)
    · exact (div_le_one hden).mpr (by linarith)
    · exact (div_le_one hden).mpr (by linarith)

/-- Channel bounds for the engine's RGB→CMYK conversion (equality guard). -/
theorem engineRgbToCmyk_mem (r g b : ℚ) (hr0 : 0 ≤ r) (hr1 : r ≤ 1)
    (hg0 : 0 ≤ g) (hg1 : g ≤ 1) (hb0 : 0 ≤ b) (hb1 : b ≤ 1) :
    (0 ≤ (engineRgbToCmyk r g b).c ∧ (engineRgbToCmyk r g b).c ≤ 1) ∧
    (0 ≤ (engineRgbToCmyk r g b).m ∧ (engineRgbToCmyk r g b).m ≤ 1) ∧
    (0 ≤ (engineRgbToCmyk r g b).y ∧ (engineRgbToCmyk r g b).y ≤ 1) ∧
    (0 ≤ (engineRgbToCmyk r g b).k ∧ (engineRgbToCmyk r g b).k ≤ 1) := by
  have hMr : r ≤ max r (max g b) := le_max_left _ _
  have hMg : g ≤ max r (max g b) := le_trans (le_max_left g b) (le_max_right _ _)
  have hMb : b ≤ max r (max g b) := le_trans (le_max_right g b) (le_max_right _ _)
  have hM1 : max r (max g b) ≤ 1 := max_le hr1 (max_le hg1 hb1)
  have hM0 : 0 ≤ max r (max g b) := le_trans hr0 hMr
  simp only [engineRgbToCmyk]
  split_ifs with h
  · refine ⟨⟨le_refl 0, by norm_num⟩, ⟨le_refl 0, by norm_num⟩,
      ⟨le_refl 0, by norm_num⟩, ⟨by norm_num, le_refl 1⟩⟩
  · have hMpos : 0 < max r (max g b) := by
      rcases lt_or_eq_of_le hM0 with hlt | heq
      · exact hlt
      · exact absurd (by rw [← heq]; ring) h
    have hden : (0 : ℚ) < 1 - (1 - max r (max g b)) := by linarith
    refine ⟨⟨div_nonneg (by linarith) (le_of_lt hden), ?_⟩,
      ⟨div_nonneg (by linarith) (le_of_lt hden), ?_⟩,
      ⟨div_nonneg (by linarith) (le_of_lt hden), ?_⟩,
      ⟨by linarith, by linarith⟩⟩
    · exact (div_le_one hden).mpr (by linarith)
    · exact (div_le_one hden).mpr (by linarith)
    · exact (div_le_one hden).mpr (by linarith)

/-- The pre-rounding CMYK→RGB reconstruction inverts the engine's RGB→CMYK
conversion exactly. -/
theorem engineRgbToCmyk_pre_exact (r g b : ℚ) (hr0 : 0 ≤ r) (hr1 : r ≤ 1)
    (hg0 : 0 ≤ g) (hg1 : g ≤ 1) (hb0 : 0 ≤ b) (hb1 : b ≤ 1) :
    engineCmykToRgbPre (engineRgbToCmyk r g b).c (engineRgbToCmyk r g b).m
        (engineRgbToCmyk r g b).y (engineRgbToCmyk r g b).k =
      (255 * r, 255 * g, 255 * b) := by
  have hMr : r ≤ max r (max g b) := le_max_left _ _
  have hMg : g ≤ max r (max g b) := le_trans (le_max_left g b) (le_max_right _ _)
  have hMb : b ≤ max r (max g b) := le_trans (le_max_right g b) (le_max_right _ _)
  have hM0 : 0 ≤ max r (max g b) := le_trans hr0 hMr
  simp only [engineRgbToCmyk, engineCmykToRgbPre]
  split_ifs with h
  · have hM : max r (max g b) = 0 := by linarith [sub_eq_iff_eq_add.mp h]
    have hr : r = 0 := le_antisymm (hM ▸ hMr) hr0
    have hgz : g = 0 := le_antisymm (hM ▸ hMg) hg0
    have hbz : b = 0 := le_antisymm (hM ▸ hMb) hb0
    rw [hr, hgz, hbz]
    norm_num
  · have hMne : max r (max g b) ≠ 0 := by
      intro hc
      exact h (by rw [hc]; ring)
    refine Prod.ext ?_ (Prod.ext ?_ ?_) <;> field_simp <;> ring

/-- `Math.round` lands within 1 of its argument. -/
theorem jsRound_abs_le (x : ℚ) : |(jsRound x : ℚ) - x| ≤ 1 := by
  have h1 : ((⌊x + 1/2⌋ : ℤ) : ℚ) ≤ x + 1/2 := Int.floor_le _
  have h2 : x + 1/2 - 1 < ((⌊x + 1/2⌋ : ℤ) : ℚ) := Int.sub_one_lt_floor _
  simp only [jsRound]
  rw [abs_le]
  constructor <;> linarith

/-- Every profile's gamut-reduction factor is non-negative (worker table). -/
theorem workerGamutReduction_nonneg (pt : PaperType) :
    0 ≤ (workerPROFILES pt).gamutReduction := by
  cases pt <;> norm_num [workerPROFILES]

/-- Every profile's gamut-reduction factor is non-negative (engine table). -/
theorem engineGamutReduction_nonneg (pt : PaperType) :
    0 ≤ (enginePROFILES pt).gamutReduction := by
  cases pt <;> norm_num [enginePROFILES]

/-- All four channels of a CMYK record lie in `[0, 1]`. -/
def cmykMem01 (q : Cmyk) : Prop :=
  (0 ≤ q.c ∧ q.c ≤ 1) ∧ (0 ≤ q.m ∧ q.m ≤ 1) ∧ (0 ≤ q.y ∧ q.y ≤ 1) ∧ (0 ≤ q.k ∧ q.k ≤ 1)

instance (q : Cmyk) : Decidable (cmykMem01 q) := by
  unfold cmykMem01
  infer_instance

/-- An 8-bit channel value normalizes into `[0, 1]`. -/
theorem byte_div_mem (n : Nat) (h : n ≤ 255) :
    0 ≤ (n : ℚ) / 255 ∧ (n : ℚ) / 255 ≤ 1 := by
  constructor
  · positivity
  · rw [div_le_one (by norm_num : (0:ℚ) < 255)]
    exact_mod_cast h

/-- Stage 1 bounds: the worker's per-pixel conversion of byte inputs. -/
theorem workerPixelRaw_mem (p : Pixel) (hr : p.r ≤ 255) (hg : p.g ≤ 255)
    (hb : p.b ≤ 255) : cmykMem01 (workerPixelRaw p) := by
  obtain ⟨h1, h2⟩ := byte_div_mem p.r hr
  obtain ⟨h3, h4⟩ := byte_div_mem p.g hg
  obtain ⟨h5, h6⟩ := byte_div_mem p.b hb
  exact workerRgbToCmyk_mem _ _ _ h1 h2 h3 h4 h5 h6

/-- Stage 2 bounds: the tone-shifted channels are clamped into `[0, 1]`
whatever the input, settings and abstract sine. -/
theorem workerPixelShifted_mem (sinPi : ℚ → ℚ) (st : Settings) (p : Pixel) :
    cmykMem01 (workerPixelShifted sinPi st p) := by
  simp only [workerPixelShifted, cmykMem01]
  exact ⟨workerApplyDotGain_mem _ _ _ _ _, workerApplyDotGain_mem _ _ _ _ _,
    workerApplyDotGain_mem _ _ _ _ _, workerApplyDotGain_mem _ _ _ _ _⟩

/-- Stage 3 bounds: the gamut-reduction inflation keeps channels in `[0, 1]`. -/
theorem workerPixelInflated_mem (sinPi : ℚ → ℚ) (st : Settings) (p : Pixel) :
    cmykMem01 (workerPixelInflated sinPi st p) := by
  have hs := workerPixelShifted_mem sinPi st p
  have hgr := workerGamutReduction_nonneg st.paperType
  obtain ⟨⟨hc0, hc1⟩, ⟨hm0, hm1⟩, ⟨hy0, hy1⟩, ⟨hk0, hk1⟩⟩ := hs
  simp only [workerPixelInflated]
  split_ifs with h
  · refine ⟨⟨?_, min_le_left _ _⟩, ⟨?_, min_le_left _ _⟩,
      ⟨?_, min_le_left _ _⟩, ⟨hk0, hk1⟩⟩
    · refine le_min (by norm_num) ?_
      have := mul_nonneg (mul_nonneg hc0 hgr) (by norm_num : (0:ℚ) ≤ 0.5)
      linarith
    · refine le_min (by norm_num) ?_
      have := mul_nonneg (mul_nonneg hm0 hgr) (by norm_num : (0:ℚ) ≤ 0.3)
      linarith
    · refine le_min (by norm_num) ?_
      have := mul_nonneg (mul_nonneg hy0 hgr) (by norm_num : (0:ℚ) ≤ 0.3)
      linarith
  · exact ⟨⟨hc0, hc1⟩, ⟨hm0, hm1⟩, ⟨hy0, hy1⟩, ⟨hk0, hk1⟩⟩

/-- The worker's per-pixel total area coverage is bounded to `[0, 400]`. -/
theorem workerPixelTac_mem (sinPi : ℚ → ℚ) (st : Settings) (p : Pixel) :
    0 ≤ workerPixelTac sinPi st p ∧ workerPixelTac sinPi st p ≤ 400 := by
  obtain ⟨⟨hc0, hc1⟩, ⟨hm0, hm1⟩, ⟨hy0, hy1⟩, ⟨hk0, hk1⟩⟩ :=
    workerPixelInflated_mem sinPi st p
  simp only [workerPixelTac]
  constructor <;> nlinarith

/-- Engine stage 1 bounds. -/
theorem enginePixelRaw_mem (p : Pixel) (hr : p.r ≤ 255) (hg : p.g ≤ 255)
    (hb : p.b ≤ 255) : cmykMem01 (enginePixelRaw p) := by
  obtain ⟨h1, h2⟩ := byte_div_mem p.r hr
  obtain ⟨h3, h4⟩ := byte_div_mem p.g hg
  obtain ⟨h5, h6⟩ := byte_div_mem p.b hb
  exact engineRgbToCmyk_mem _ _ _ h1 h2 h3 h4 h5 h6

/-- Engine stage 2 bounds. -/
theorem enginePixelShifted_mem (sinPi : ℚ → ℚ) (st : Settings) (p : Pixel) :
    cmykMem01 (enginePixelShifted sinPi st p) := by
  simp only [enginePixelShifted, cmykMem01, engineApplyDotGain_eq_worker]
  exact ⟨workerApplyDotGain_mem _ _ _ _ _, workerApplyDotGain_mem _ _ _ _ _,
    workerApplyDotGain_mem _ _ _ _ _, workerApplyDotGain_mem _ _ _ _ _⟩

/-- Engine stage 3 bounds (`c * (1 + reduction * factor)` form). -/
theorem enginePixelInflated_mem (sinPi : ℚ → ℚ) (st : Settings) (p : Pixel) :
    cmykMem01 (enginePixelInflated sinPi st p) := by
  have hs := enginePixelShifted_mem sinPi st p
  have hgr := engineGamutReduction_nonneg st.paperType
  obtain ⟨⟨hc0, hc1⟩, ⟨hm0, hm1⟩, ⟨hy0, hy1⟩, ⟨hk0, hk1⟩⟩ := hs
  simp only [enginePixelInflated]
  split_ifs with h
  · refine ⟨⟨?_, min_le_left _ _⟩, ⟨?_, min_le_left _ _⟩,
      ⟨?_, min_le_left _ _⟩, ⟨hk0, hk1⟩⟩
    · exact le_min (by norm_num) (mul_nonneg hc0 (by nlinarith))
    · exact le_min (by norm_num) (mul_nonneg hm0 (by nlinarith))
    · exact le_min (by norm_num) (mul_nonneg hy0 (by nlinarith))
  · exact ⟨⟨hc0, hc1⟩, ⟨hm0, hm1⟩, ⟨hy0, hy1⟩, ⟨hk0, hk1⟩⟩

/-- The engine's per-pixel total area coverage is bounded to `[0, 400]`. -/
theorem enginePixelTac_mem (sinPi : ℚ → ℚ) (st : Settings) (p : Pixel) :
    0 ≤ enginePixelTac sinPi st p ∧ enginePixelTac sinPi st p ≤ 400 := by
  obtain ⟨⟨hc0, hc1⟩, ⟨hm0, hm1⟩, ⟨hy0, hy1⟩, ⟨hk0, hk1⟩⟩ :=
    enginePixelInflated_mem sinPi st p
  simp only [enginePixelTac, engineTotalInkCoverage]
  constructor <;> nlinarith

/-- A left fold whose step fixes every accumulator on the list's members is
the identity. -/
theorem foldlConstOfStepId {α β : Type} (f : β → α → β) (b : β) (l : List α)
    (h : ∀ a ∈ l, ∀ x, f x a = x) : l.foldl f b = b := by
  induction l generalizing b with
  | nil => rfl
  | cons a t ih =>
    rw [List.foldl_cons, h a (List.mem_cons_self a t)]
    exact ih b (fun a' ha' => h a' (List.mem_cons_of_mem _ ha'))

/-- Transparent pixels do not touch the worker's aggregates: the fold over a
buffer equals the fold over its non-transparent pixels. -/
theorem workerAgg_foldl_filter (sinPi : ℚ → ℚ) (st : Settings)
    (pixels : List Pixel) (agg : Agg) :
    pixels.foldl (workerAggStep sinPi st) agg =
      (pixels.filter (fun p => !(p.a == 0))).foldl (workerAggStep sinPi st) agg := by
  induction pixels generalizing agg with
  | nil => rfl
  | cons p rest ih =>
    rw [List.foldl_cons, List.filter_cons]
    by_cases h : p.a = 0
    · have hstep : workerAggStep sinPi st agg p = agg := by
        simp [workerAggStep, h]
      rw [hstep]
      have hcond : (!(p.a == 0)) = false := by simp [h]
      rw [hcond]
      simp only [Bool.false_eq_true, if_false]
      exact ih agg
    · have hcond : (!(p.a == 0)) = true := by simp [h]
      rw [hcond, if_pos rfl, List.foldl_cons]
      exact ih _

/-- On an all-transparent buffer the worker's aggregate fold is the identity. -/
theorem workerAgg_foldl_transparent (sinPi : ℚ → ℚ) (st : Settings)
    (pixels : List Pixel) (agg : Agg) (h : ∀ p ∈ pixels, p.a = 0) :
    pixels.foldl (workerAggStep sinPi st) agg = agg :=
  foldlConstOfStepId _ _ _ (fun p hp x => by simp [workerAggStep, h p hp])

/-! ## Claim theorems -/

/-- Claim C8: for every magnitude and every shadow/highlight response values
the tone-shift function is the identity at the domain boundaries —
`applyDotGain 0 ... = 0` and `applyDotGain 1 ... = 1` exactly — and maps
every `v ∈ [0,1]` into `[0,1]`; for the worker's and the engine's
(verbatim-identical) copies, with an arbitrary abstract sine. -/
theorem C8_dot_gain_boundary_and_range (sinPi : ℚ → ℚ) (gain sg hg v : ℚ) :
    workerApplyDotGain sinPi 0 gain sg hg = 0 ∧
    workerApplyDotGain sinPi 1 gain sg hg = 1 ∧
    engineApplyDotGain sinPi 0 gain sg hg = 0 ∧
    engineApplyDotGain sinPi 1 gain sg hg = 1 ∧
    (0 ≤ v → v ≤ 1 →
      (0 ≤ workerApplyDotGain sinPi v gain sg hg ∧
        workerApplyDotGain sinPi v gain sg hg ≤ 1) ∧
      (0 ≤ engineApplyDotGain sinPi v gain sg hg ∧
        engineApplyDotGain sinPi v gain sg hg ≤ 1)) := by
  refine ⟨?_, ?_, ?_, ?_, ?_⟩
  · norm_num [workerApplyDotGain]
  · norm_num [workerApplyDotGain]
  · norm_num [engineApplyDotGain_eq_worker, workerApplyDotGain]
  · norm_num [engineApplyDotGain_eq_worker, workerApplyDotGain]
  · intro _ _
    rw [engineApplyDotGain_eq_worker]
    exact ⟨workerApplyDotGain_mem _ _ _ _ _, workerApplyDotGain_mem _ _ _ _ _⟩

/-- Witness for C8 at `v = 1/3`, gain `0.15`, responses `0.8` / `0.4`. -/
theorem C8_dot_gain_boundary_and_range_witness :
    workerApplyDotGain (fun x => x) 0 0.15 0.8 0.4 = 0 ∧
    (0 ≤ workerApplyDotGain (fun x => x) (1/3) 0.15 0.8 0.4 ∧
      workerApplyDotGain (fun x => x) (1/3) 0.15 0.8 0.4 ≤ 1) := by
  have h := C8_dot_gain_boundary_and_range (fun x => x) 0.15 0.8 0.4 (1/3)
  exact ⟨h.1, (h.2.2.2.2 (by norm_num) (by norm_num)).1⟩

/-- Claim C9: `rgbToCmyk 0 0 0` is exactly `(c=0, m=0, y=0, k=1)` — the
`k = 1` guard returns directly for pure black — and for all inputs the
division by `1 - k` is never executed with a zero denominator: the checked
variant, which returns `none` exactly when a zero-denominator division
would run, always returns the unchecked result. -/
theorem C9_pure_black_no_div_zero :
    engineRgbToCmyk 0 0 0 = ⟨0, 0, 0, 1⟩ ∧
    ∀ r g b : ℚ, engineRgbToCmykChecked r g b = some (engineRgbToCmyk r g b) := by
  constructor
  · norm_num [engineRgbToCmyk]
  · intro r g b
    simp only [engineRgbToCmykChecked, engineRgbToCmyk]
    split_ifs with h1 h2
    · rfl
    · exfalso
      apply h1
      have hM : max r (max g b) = 0 := by linarith
      rw [hM, sub_zero]
    · rfl

/-- Claim C1: the risk verdict is the three-tier decision against the
substrate's ink-coverage limit: `danger` iff `maxCoverage > limit + 30` or
`outOfGamutPercent > 25`; otherwise `caution` iff `maxCoverage > limit` or
`outOfGamutPercent > 10`; otherwise `safe` — so in particular the level is
`danger` whenever `maxCoverage > limit + 30` and `safe` whenever
`maxCoverage ≤ limit` and `outOfGamutPercent ≤ 10`; for both the engine's
`assessPrintRisk` and the worker's inlined decision. -/
theorem C1_risk_three_tier (avgTAC maxTAC oogPct : ℚ) (pt : PaperType) :
    (((engineAssessPrintRisk avgTAC maxTAC oogPct pt).level = "danger") ↔
      (((enginePROFILES pt).inkLimit : ℚ) + 30 < maxTAC ∨ 25 < oogPct)) ∧
    (((engineAssessPrintRisk avgTAC maxTAC oogPct pt).level = "caution") ↔
      (¬(((enginePROFILES pt).inkLimit : ℚ) + 30 < maxTAC ∨ 25 < oogPct) ∧
        (((enginePROFILES pt).inkLimit : ℚ) < maxTAC ∨ 10 < oogPct))) ∧
    (((engineAssessPrintRisk avgTAC maxTAC oogPct pt).level = "safe") ↔
      (maxTAC ≤ ((enginePROFILES pt).inkLimit : ℚ) ∧ oogPct ≤ 10)) ∧
    (((workerRisk maxTAC oogPct (workerPROFILES pt)).level = "danger") ↔
      (((workerPROFILES pt).inkLimit : ℚ) + 30 < maxTAC ∨ 25 < oogPct)) ∧
    (((workerRisk maxTAC oogPct (workerPROFILES pt)).level = "caution") ↔
      (¬(((workerPROFILES pt).inkLimit : ℚ) + 30 < maxTAC ∨ 25 < oogPct) ∧
        (((workerPROFILES pt).inkLimit : ℚ) < maxTAC ∨ 10 < oogPct))) ∧
    (((workerRisk maxTAC oogPct (workerPROFILES pt)).level = "safe") ↔
      (maxTAC ≤ ((workerPROFILES pt).inkLimit : ℚ) ∧ oogPct ≤ 10)) := by
  have hcd : ¬(("caution" : String) = "danger") := by decide
  have hsd : ¬(("safe" : String) = "danger") := by decide
  have hdc : ¬(("danger" : String) = "caution") := by decide
  have hsc : ¬(("safe" : String) = "caution") := by decide
  have hds : ¬(("danger" : String) = "safe") := by decide
  have hcs : ¬(("caution" : String) = "safe") := by decide
  refine ⟨?_, ?_, ?_, ?_, ?_, ?_⟩
  · simp only [engineAssessPrintRisk]
    split_ifs with h1 h2
    · exact iff_of_true rfl h1
    · exact iff_of_false (fun h => hcd h) h1
    · exact iff_of_false (fun h => hsd h) h1
  · simp only [engineAssessPrintRisk]
    split_ifs with h1 h2
    · exact iff_of_false (fun h => hdc h) (fun hc => hc.1 h1)
    · exact iff_of_true rfl ⟨h1, h2⟩
    · exact iff_of_false (fun h => hsc h) (fun hc => h2 hc.2)
  · simp only [engineAssessPrintRisk]
    split_ifs with h1 h2
    · refine iff_of_false (fun h => hds h) (fun hc => ?_)
      rcases h1 with h | h
      · linarith [hc.1]
      · linarith [hc.2]
    · refine iff_of_false (fun h => hcs h) (fun hc => ?_)
      rcases h2 with h | h
      · linarith [hc.1]
      · linarith [hc.2]
    · push_neg at h2
      exact iff_of_true rfl h2
  · simp only [workerRisk]
    split_ifs with h1 h2
    · exact iff_of_true rfl h1
    · exact iff_of_false (fun h => hcd h) h1
    · exact iff_of_false (fun h => hsd h) h1
  · simp only [workerRisk]
    split_ifs with h1 h2
    · exact iff_of_false (fun h => hdc h) (fun hc => hc.1 h1)
    · exact iff_of_true rfl ⟨h1, h2⟩
    · exact iff_of_false (fun h => hsc h) (fun hc => h2 hc.2)
  · simp only [workerRisk]
    split_ifs with h1 h2
    · refine iff_of_false (fun h => hds h) (fun hc => ?_)
      rcases h1 with h | h
      · linarith [hc.1]
      · linarith [hc.2]
    · refine iff_of_false (fun h => hcs h) (fun hc => ?_)
      rcases h2 with h | h
      · linarith [hc.1]
      · linarith [hc.2]
    · push_neg at h2
      exact iff_of_true rfl h2

/-- Claim C2: for every 8-bit RGBA input pixel with nonzero alpha and every
settings record, the per-pixel channels lie in `[0,1]` after the RGB→CMYK
conversion, after the tone-shift, and after the gamut-reduction inflation,
so the pixel's total coverage `(c+m+y+k) * 100` lies in `[0,400]`; for both
the worker pipeline and the engine pipeline stages. -/
theorem C2_channel_bounds (sinPi : ℚ → ℚ) (st : Settings) (p : Pixel)
    (hr : p.r ≤ 255) (hg : p.g ≤ 255) (hb : p.b ≤ 255) (ha : p.a ≠ 0) :
    cmykMem01 (workerPixelRaw p) ∧
    cmykMem01 (workerPixelShifted sinPi st p) ∧
    cmykMem01 (workerPixelInflated sinPi st p) ∧
    (0 ≤ workerPixelTac sinPi st p ∧ workerPixelTac sinPi st p ≤ 400) ∧
    cmykMem01 (enginePixelRaw p) ∧
    cmykMem01 (enginePixelShifted sinPi st p) ∧
    cmykMem01 (enginePixelInflated sinPi st p) ∧
    (0 ≤ enginePixelTac sinPi st p ∧ enginePixelTac sinPi st p ≤ 400) :=
  ⟨workerPixelRaw_mem p hr hg hb, workerPixelShifted_mem _ _ _,
   workerPixelInflated_mem _ _ _, workerPixelTac_mem _ _ _,
   enginePixelRaw_mem p hr hg hb, enginePixelShifted_mem _ _ _,
   enginePixelInflated_mem _ _ _, enginePixelTac_mem _ _ _⟩

/-- Witness for C2 on the pixel `(12, 200, 34, 255)` under newsprint. -/
theorem C2_channel_bounds_witness :
    cmykMem01 (workerPixelRaw ⟨12, 200, 34, 255⟩) ∧
    (0 ≤ workerPixelTac (fun _ => 1)
        ⟨PaperType.newsprint, 0.3, true, true, true, true, false⟩ ⟨12, 200, 34, 255⟩ ∧
      workerPixelTac (fun _ => 1)
        ⟨PaperType.newsprint, 0.3, true, true, true, true, false⟩ ⟨12, 200, 34, 255⟩ ≤ 400) := by
  have h := C2_channel_bounds (fun _ => 1)
    ⟨PaperType.newsprint, 0.3, true, true, true, true, false⟩ ⟨12, 200, 34, 255⟩
    (by norm_num) (by norm_num) (by norm_num) (by norm_num)
  exact ⟨h.1, h.2.2.2.1⟩

/-- Claim C3: converting with the engine's `rgbToCmyk` and back with its
`cmykToRgb` — all four channels shown, a zero-magnitude tone-shift applied
to each channel — reproduces the 8-bit pixel `(255r, 255g, 255b)` within a
rounding error of at most 1 per channel, and the round-trip is exact before
the rounding to 8-bit. -/
theorem C3_round_trip (sinPi : ℚ → ℚ) (sg hg r g b : ℚ)
    (hr0 : 0 ≤ r) (hr1 : r ≤ 1) (hg0 : 0 ≤ g) (hg1 : g ≤ 1)
    (hb0 : 0 ≤ b) (hb1 : b ≤ 1) :
    engineCmykToRgbPre
        (engineApplyDotGain sinPi (engineRgbToCmyk r g b).c 0 sg hg)
        (engineApplyDotGain sinPi (engineRgbToCmyk r g b).m 0 sg hg)
        (engineApplyDotGain sinPi (engineRgbToCmyk r g b).y 0 sg hg)
        (engineApplyDotGain sinPi (engineRgbToCmyk r g b).k 0 sg hg) =
      (255 * r, 255 * g, 255 * b) ∧
    |(((engineCmykToRgb
        (engineApplyDotGain sinPi (engineRgbToCmyk r g b).c 0 sg hg)
        (engineApplyDotGain sinPi (engineRgbToCmyk r g b).m 0 sg hg)
        (engineApplyDotGain sinPi (engineRgbToCmyk r g b).y 0 sg hg)
        (engineApplyDotGain sinPi (engineRgbToCmyk r g b).k 0 sg hg)).1 : ℚ))
      - 255 * r| ≤ 1 ∧
    |(((engineCmykToRgb
        (engineApplyDotGain sinPi (engineRgbToCmyk r g b).c 0 sg hg)
        (engineApplyDotGain sinPi (engineRgbToCmyk r g b).m 0 sg hg)
        (engineApplyDotGain sinPi (engineRgbToCmyk r g b).y 0 sg hg)
        (engineApplyDotGain sinPi (engineRgbToCmyk r g b).k 0 sg hg)).2.1 : ℚ))
      - 255 * g| ≤ 1 ∧
    |(((engineCmykToRgb
        (engineApplyDotGain sinPi (engineRgbToCmyk r g b).c 0 sg hg)
        (engineApplyDotGain sinPi (engineRgbToCmyk r g b).m 0 sg hg)
        (engineApplyDotGain sinPi (engineRgbToCmyk r g b).y 0 sg hg)
        (engineApplyDotGain sinPi (engineRgbToCmyk r g b).k 0 sg hg)).2.2 : ℚ))
      - 255 * b| ≤ 1 := by
  obtain ⟨⟨hc0, hc1⟩, ⟨hm0, hm1⟩, ⟨hy0, hy1⟩, ⟨hk0, hk1⟩⟩ :=
    engineRgbToCmyk_mem r g b hr0 hr1 hg0 hg1 hb0 hb1
  have ec : engineApplyDotGain sinPi (engineRgbToCmyk r g b).c 0 sg hg =
      (engineRgbToCmyk r g b).c := by
    rw [engineApplyDotGain_eq_worker]
    exact workerApplyDotGain_zero_gain _ _ _ _ hc0 hc1
  have em : engineApplyDotGain sinPi (engineRgbToCmyk r g b).m 0 sg hg =
      (engineRgbToCmyk r g b).m := by
    rw [engineApplyDotGain_eq_worker]
    exact workerApplyDotGain_zero_gain _ _ _ _ hm0 hm1
  have ey : engineApplyDotGain sinPi (engineRgbToCmyk r g b).y 0 sg hg =
      (engineRgbToCmyk r g b).y := by
    rw [engineApplyDotGain_eq_worker]
    exact workerApplyDotGain_zero_gain _ _ _ _ hy0 hy1
  have ek : engineApplyDotGain sinPi (engineRgbToCmyk r g b).k 0 sg hg =
      (engineRgbToCmyk r g b).k := by
    rw [engineApplyDotGain_eq_worker]
    exact workerApplyDotGain_zero_gain _ _ _ _ hk0 hk1
  have hpre := engineRgbToCmyk_pre_exact r g b hr0 hr1 hg0 hg1 hb0 hb1
  have h1 : 255 * (1 - (engineRgbToCmyk r g b).c) * (1 - (engineRgbToCmyk r g b).k)
      = 255 * r := by
    have := congrArg Prod.fst hpre
    simpa [engineCmykToRgbPre] using this
  have h2 : 255 * (1 - (engineRgbToCmyk r g b).m) * (1 - (engineRgbToCmyk r g b).k)
      = 255 * g := by
    have := congrArg (fun t => t.2.1) hpre
    simpa [engineCmykToRgbPre] using this
  have h3 : 255 * (1 - (engineRgbToCmyk r g b).y) * (1 - (engineRgbToCmyk r g b).k)
      = 255 * b := by
    have := congrArg (fun t => t.2.2) hpre
    simpa [engineCmykToRgbPre] using this
  rw [ec, em, ey, ek]
  refine ⟨hpre, ?_, ?_, ?_⟩
  · simp only [engineCmykToRgb]
    rw [h1]
    exact jsRound_abs_le _
  · simp only [engineCmykToRgb]
    rw [h2]
    exact jsRound_abs_le _
  · simp only [engineCmykToRgb]
    rw [h3]
    exact jsRound_abs_le _

/-- Witness for C3 at `(r, g, b) = (1/2, 1/3, 1/4)`. -/
theorem C3_round_trip_witness :
    engineCmykToRgbPre
        (engineApplyDotGain (fun _ => 1) (engineRgbToCmyk (1/2) (1/3) (1/4)).c 0 1 (1/2))
        (engineApplyDotGain (fun _ => 1) (engineRgbToCmyk (1/2) (1/3) (1/4)).m 0 1 (1/2))
        (engineApplyDotGain (fun _ => 1) (engineRgbToCmyk (1/2) (1/3) (1/4)).y 0 1 (1/2))
        (engineApplyDotGain (fun _ => 1) (engineRgbToCmyk (1/2) (1/3) (1/4)).k 0 1 (1/2)) =
      (255 * (1/2), 255 * (1/3), 255 * (1/4)) := by
  have h := C3_round_trip (fun _ => 1) 1 (1/2) (1/2) (1/3) (1/4)
    (by norm_num) (by norm_num) (by norm_num) (by norm_num) (by norm_num) (by norm_num)
  exact h.1

/-- Claim C5: a pixel with alpha 0 yields opaque white in the output buffer
and a fully transparent overlay pixel; transparent pixels are excluded from
the average/maximum coverage and out-of-gamut statistics (the aggregate
fields equal those computed on the buffer with transparent pixels removed);
and an all-transparent image completes with `avgTAC = 0` and
`outOfGamutPercent = 0`. -/
theorem C5_transparent_pixel_handling (sinPi : ℚ → ℚ) (pixels : List Pixel)
    (st : Settings) :
    (∀ (i : Nat) (p : Pixel), pixels[i]? = some p → p.a = 0 →
      (workerProcessImage sinPi pixels st).outputPixels[i]? =
        some ⟨255, 255, 255, 255⟩ ∧
      (workerProcessImage sinPi pixels st).gamutPixels[i]? = some ⟨0, 0, 0, 0⟩) ∧
    ((workerProcessImage sinPi pixels st).stats.avgTAC =
        (workerProcessImage sinPi (pixels.filter (fun p => !(p.a == 0))) st).stats.avgTAC ∧
      (workerProcessImage sinPi pixels st).stats.maxTAC =
        (workerProcessImage sinPi (pixels.filter (fun p => !(p.a == 0))) st).stats.maxTAC ∧
      (workerProcessImage sinPi pixels st).stats.outOfGamutCount =
        (workerProcessImage sinPi (pixels.filter (fun p => !(p.a == 0))) st).stats.outOfGamutCount ∧
      (workerProcessImage sinPi pixels st).stats.outOfGamutPercent =
        (workerProcessImage sinPi (pixels.filter (fun p => !(p.a == 0))) st).stats.outOfGamutPercent) ∧
    ((∀ p ∈ pixels, p.a = 0) →
      (workerProcessImage sinPi pixels st).stats.avgTAC = 0 ∧
      (workerProcessImage sinPi pixels st).stats.outOfGamutPercent = 0) := by
  refine ⟨?_, ?_, ?_⟩
  · intro i p hip hp0
    simp only [workerProcessImage]
    constructor
    · rw [List.getElem?_map, hip]
      simp [workerOutPixel, hp0]
    · rw [List.getElem?_map, hip]
      simp [workerGamPixel, hp0]
  · have hagg := workerAgg_foldl_filter sinPi st pixels ⟨0, 0, 0, 0⟩
    simp only [workerProcessImage, hagg]
    simp
  · intro h
    have hagg := workerAgg_foldl_transparent sinPi st pixels ⟨0, 0, 0, 0⟩ h
    simp only [workerProcessImage, hagg]
    norm_num [jsRound]

/-- Witness for C5 on the single transparent pixel `(7, 8, 9, 0)`. -/
theorem C5_transparent_pixel_handling_witness :
    (workerProcessImage (fun _ => 1) [⟨7, 8, 9, 0⟩]
        ⟨PaperType.coated, 0.15, true, true, true, true, false⟩).outputPixels[0]? =
      some ⟨255, 255, 255, 255⟩ ∧
    (workerProcessImage (fun _ => 1) [⟨7, 8, 9, 0⟩]
        ⟨PaperType.coated, 0.15, true, true, true, true, false⟩).stats.avgTAC = 0 := by
  have h := C5_transparent_pixel_handling (fun _ => 1) [⟨7, 8, 9, 0⟩]
    ⟨PaperType.coated, 0.15, true, true, true, true, false⟩
  exact ⟨(h.1 0 ⟨7, 8, 9, 0⟩ rfl rfl).1, (h.2.2 (by decide)).1⟩

/-- Claim C6: a `process` request whose pixel buffer is missing or has
length 0 produces the failure response carrying the descriptive message and
never the success response (no output buffers, no statistics). -/
theorem C6_empty_buffer_fails (sinPi : ℚ → ℚ) (msg : WorkerMessage)
    (htype : msg.type = "process")
    (h : msg.pixels = none ∨ msg.pixels = some []) :
    workerOnMessage sinPi msg =
      some (.error "No pixel data received. Image may not have loaded correctly.") ∧
    ∀ outPx gamPx stats,
      workerOnMessage sinPi msg ≠ some (.result outPx gamPx stats) := by
  have hempty : (msg.pixels.getD []).length = 0 := by
    rcases h with h | h <;> rw [h] <;> rfl
  have heq : workerOnMessage sinPi msg =
      some (.error "No pixel data received. Image may not have loaded correctly.") := by
    simp only [workerOnMessage, htype]
    simp [hempty]
  refine ⟨heq, fun outPx gamPx stats hcontra => ?_⟩
  rw [heq] at hcontra
  simp at hcontra

/-- Witness for C6: a `process` message with a missing buffer. -/
theorem C6_empty_buffer_fails_witness :
    workerOnMessage (fun _ => 1)
      ⟨"process", none, ⟨PaperType.coated, 0.15, true, true, true, true, false⟩⟩ =
      some (.error "No pixel data received. Image may not have loaded correctly.") := by
  have h := C6_empty_buffer_fails (fun _ => 1)
    ⟨"process", none, ⟨PaperType.coated, 0.15, true, true, true, true, false⟩⟩
    rfl (Or.inl rfl)
  exact h.1

/-- The worker aggregate step reads the settings only through the paper type
and the dot-gain magnitude. -/
theorem workerAggStep_flags_eq (sinPi : ℚ → ℚ) (s1 s2 : Settings)
    (hpt : s1.paperType = s2.paperType) (hdg : s1.dotGain = s2.dotGain) :
    workerAggStep sinPi s1 = workerAggStep sinPi s2 := by
  funext agg p
  simp only [workerAggStep, workerPixelTac, workerPixelInflated, workerPixelShifted,
    workerPixelRaw, hpt, hdg]

/-- Claim C10: the statistics record of the worker pipeline is identical
across any two settings records that differ only in the channel-visibility
and gamut-overlay flags: those flags influence only the output and overlay
buffers. -/
theorem C10_stats_independent_of_flags (sinPi : ℚ → ℚ) (pixels : List Pixel)
    (s1 s2 : Settings) (hpt : s1.paperType = s2.paperType)
    (hdg : s1.dotGain = s2.dotGain) :
    (workerProcessImage sinPi pixels s1).stats =
      (workerProcessImage sinPi pixels s2).stats := by
  simp only [workerProcessImage, workerAggStep_flags_eq sinPi s1 s2 hpt hdg, hpt]

/-- Witness for C10: all four visibility flags and the overlay flag flipped. -/
theorem C10_stats_independent_of_flags_witness :
    (workerProcessImage (fun _ => 1) [⟨10, 20, 30, 255⟩]
        ⟨PaperType.coated, 0.15, true, true, true, true, false⟩).stats =
      (workerProcessImage (fun _ => 1) [⟨10, 20, 30, 255⟩]
        ⟨PaperType.coated, 0.15, false, false, false, false, true⟩).stats :=
  C10_stats_independent_of_flags (fun _ => 1) [⟨10, 20, 30, 255⟩] _ _ rfl rfl

/-- The alpha-skipping bucket loop collects nothing when every pixel of the
buffer has alpha below 128. -/
theorem skipSampleBuckets_nil (pixels : List Pixel) (sampleRate : Nat)
    (h : ∀ p ∈ pixels, p.a < 128) :
    skipSampleBuckets pixels sampleRate = [] := by
  apply foldlConstOfStepId
  intro i _ bs
  have hlt : (pixels.getD i ⟨0, 0, 0, 0⟩).a < 128 := by
    rw [List.getD_eq_getElem?_getD]
    cases hx : pixels[i]? with
    | none => norm_num [Option.getD]
    | some p => exact h p (List.getElem?_mem hx)
  simp only [hlt, if_true]

/-- Claim C7 (amended): the worker.js and main-demo.js dominant-color
samplers skip every sampled pixel whose alpha is below 128, so for an image
whose pixels all have alpha 0 the `dominantColors` lists of their statistics
records are empty; the colorEngine.js library sampler, by contrast, performs
no alpha test and counts transparent pixels (see the counterexample). -/
theorem C7_sampler_skips_low_alpha (pixels : List Pixel) (sampleRate : Nat)
    (sinPi : ℚ → ℚ) (st : Settings) :
    ((∀ p ∈ pixels, p.a < 128) →
      workerExtractDominantColors pixels sampleRate = [] ∧
      demoDominantColors pixels = []) ∧
    ((∀ p ∈ pixels, p.a = 0) →
      (workerProcessImage sinPi pixels st).stats.dominantColors = [] ∧
      (demoProcessPixels sinPi pixels st).stats.dominantColors = []) := by
  constructor
  · intro h
    constructor
    · simp [workerExtractDominantColors, skipSampleBuckets_nil pixels sampleRate h,
        sortByCountDesc]
    · simp [demoDominantColors, skipSampleBuckets_nil pixels 10 h, sortByCountDesc]
  · intro h
    have h' : ∀ p ∈ pixels, p.a < 128 := fun p hp => by rw [h p hp]; norm_num
    constructor
    · simp [workerProcessImage, workerExtractDominantColors,
        skipSampleBuckets_nil pixels 8 h', sortByCountDesc]
    · simp [demoProcessPixels, demoDominantColors,
        skipSampleBuckets_nil pixels 10 h', sortByCountDesc]

/-- Witness for C7 on the single transparent pixel `(10, 20, 30, 0)`. -/
theorem C7_sampler_skips_low_alpha_witness :
    workerExtractDominantColors [⟨10, 20, 30, 0⟩] 8 = [] ∧
    (workerProcessImage (fun _ => 1) [⟨10, 20, 30, 0⟩]
        ⟨PaperType.coated, 0.15, true, true, true, true, false⟩).stats.dominantColors = [] := by
  have h := C7_sampler_skips_low_alpha [⟨10, 20, 30, 0⟩] 8 (fun _ => 1)
    ⟨PaperType.coated, 0.15, true, true, true, true, false⟩
  exact ⟨(h.1 (by decide)).1, (h.2 (by decide)).1⟩

/-- Counterexample for C7 as frozen: colorEngine.js's `extractDominantColors`
has no alpha test, so on an image whose only pixel is fully transparent the
engine's statistics still report a non-empty `dominantColors` list. -/
theorem C7_engine_sampler_counts_transparent :
    (∀ p ∈ [Pixel.mk 10 20 30 0], p.a = 0) ∧
    (engineProcessImage (fun _ => 1) [Pixel.mk 10 20 30 0]
        ⟨PaperType.coated, 0, true, true, true, true, false⟩).stats.dominantColors ≠ [] := by
  constructor
  · decide
  · decide

/-- A 16-pixel buffer whose colors differ at sample positions 8 and 10: the
worker's stride-8 sampler sees indices {0, 8}, the main-thread stride-10
sampler sees indices {0, 10}. -/
def strideProbePixels : List Pixel :=
  [⟨0, 0, 0, 255⟩, ⟨0, 0, 0, 255⟩, ⟨0, 0, 0, 255⟩, ⟨0, 0, 0, 255⟩,
   ⟨0, 0, 0, 255⟩, ⟨0, 0, 0, 255⟩, ⟨0, 0, 0, 255⟩, ⟨0, 0, 0, 255⟩,
   ⟨255, 255, 255, 255⟩, ⟨0, 0, 0, 255⟩, ⟨64, 64, 64, 255⟩, ⟨0, 0, 0, 255⟩,
   ⟨0, 0, 0, 255⟩, ⟨0, 0, 0, 255⟩, ⟨0, 0, 0, 255⟩, ⟨0, 0, 0, 255⟩]

/-- Counterexample for C4 as frozen: on `strideProbePixels` the two variants
return different `dominantColors` lists (the worker samples every 8th pixel,
the main-thread variant every 10th), so the statistics records are not
identical. -/
theorem C4_dominant_colors_differ :
    ((workerProcessImage (fun _ => 1) strideProbePixels
        ⟨PaperType.coated, 0, true, true, true, true, false⟩).stats.dominantColors.map
      (fun d => d.r)) ≠
    ((demoProcessPixels (fun _ => 1) strideProbePixels
        ⟨PaperType.coated, 0, true, true, true, true, false⟩).stats.dominantColors.map
      (fun d => d.r)) := by
  decide

/-- Claim C4 (amended): the isolated-worker variant and the chunked
main-thread variant run the identical per-pixel algorithm — equal output
pixel buffers, equal overlay buffers, and equal `avgTAC`, `maxTAC`,
`outOfGamutPercent`, `risk` and `inkLimit` statistics — but their
dominant-color samplers use different strides (8 in the worker, 10 on the
main thread), so the `dominantColors` lists may differ, and the main-thread
statistics omit the worker's `outOfGamutCount` field. -/
theorem C4_pipelines_agree_except_sampler (sinPi : ℚ → ℚ) (pixels : List Pixel)
    (st : Settings) :
    (workerProcessImage sinPi pixels st).outputPixels =
      (demoProcessPixels sinPi pixels st).outputPixels ∧
    (workerProcessImage sinPi pixels st).gamutPixels =
      (demoProcessPixels sinPi pixels st).gamutPixels ∧
    (workerProcessImage sinPi pixels st).stats.avgTAC =
      (demoProcessPixels sinPi pixels st).stats.avgTAC ∧
    (workerProcessImage sinPi pixels st).stats.maxTAC =
      (demoProcessPixels sinPi pixels st).stats.maxTAC ∧
    (workerProcessImage sinPi pixels st).stats.outOfGamutPercent =
      (demoProcessPixels sinPi pixels st).stats.outOfGamutPercent ∧
    (workerProcessImage sinPi pixels st).stats.risk =
      (demoProcessPixels sinPi pixels st).stats.risk ∧
    (workerProcessImage sinPi pixels st).stats.inkLimit =
      (demoProcessPixels sinPi pixels st).stats.inkLimit ∧
    (workerProcessImage sinPi pixels st).stats.dominantColors =
      workerExtractDominantColors pixels 8 ∧
    (demoProcessPixels sinPi pixels st).stats.dominantColors =
      demoDominantColors pixels :=
  ⟨rfl, rfl, rfl, rfl, rfl, rfl, rfl, rfl, rfl⟩
